import Mathlib

/-!
Verification development for the lunebi voice-clone GPU-worker repository.

Shallow embedding of the worker's idempotency ledger
(src/worker/src/utils/idempotency.py), resume coordinator
(src/worker/src/utils/resume.py), artifact publisher
(src/worker/src/s3_uploader.py), two-phase scheduler / SQS poller
(src/worker/src/sqs_poller.py), the media pipeline (src/worker/src/audio_pipeline.py)
and the worker main loop (src/worker/main.py), together with theorems settling
the spec's claims about them.
-/

namespace Lunebi

/-- Membership test on lists, mirroring the Python `in` operator
(left-to-right scan). -/
def listHas [DecidableEq α] : List α → α → Bool
  | [], _ => false
  | x :: xs, a => if x = a then true else listHas xs a

/-- Association-list lookup, mirroring Python dict access (keys unique). -/
def lookupA [DecidableEq κ] : List (κ × α) → κ → Option α
  | [], _ => none
  | p :: ps, k => if p.1 = k then some p.2 else lookupA ps k

/-- Update the value stored under a key, leaving other entries unchanged. -/
def updateA [DecidableEq κ] (l : List (κ × α)) (k : κ) (f : α → α) : List (κ × α) :=
  l.map fun p => if p.1 = k then (p.1, f p.2) else p

/-- Insert-or-update for an association list (Python `dict[k] = v` /
`defaultdict` behaviour, preserving insertion order). -/
def upsertA [DecidableEq κ] (l : List (κ × α)) (k : κ) (v : α) : List (κ × α) :=
  match lookupA l k with
  | some _ => updateA l k (fun _ => v)
  | none => l ++ [(k, v)]

/-! ## Idempotency ledger — src/worker/src/utils/idempotency.py -/

/-- Return value of `IdempotencyManager.generate_idempotency_key`
(idempotency.py lines 48-52): a dict with the in-memory cache key, the S3
lock-file key and the content hash. -/
structure IdempotencyData where
  memory_key : String
  s3_key : String
  hash : String
deriving DecidableEq

/-- Zero-padded decimal rendering of a sequence number, mirroring the
Python format spec `{seq:04d}` used in the S3 lock-file key. -/
def natPad4 (n : Nat) : String :=
  let s := toString n
  if 4 ≤ s.length then s else String.mk (List.replicate (4 - s.length) '0') ++ s

/-- `IdempotencyManager.generate_idempotency_key` (idempotency.py lines 25-52).
`sha256hex32` abstracts `hashlib.sha256(...).hexdigest()[:32]`; `speed` and
`fmt` stand for the Python f-string renderings of the `speed` and `format`
arguments.  The hash string is `model_version|voice_id|text|speed|format`
(story_id and seq excluded); the S3 key is
`stories/{story_id}/idempotency/{seq:04d}_{hash}.lock` and the memory key
`{story_id}_{seq}_{hash}`. -/
def generate_idempotency_key (sha256hex32 : String → String) (model_version : String)
    (story_id : String) (seq : Nat) (text : String) (voice_id : String)
    (speed : String) (fmt : String) : IdempotencyData :=
  let hash_string := model_version ++ "|" ++ voice_id ++ "|" ++ text ++ "|" ++ speed ++ "|" ++ fmt
  let key_hash := sha256hex32 hash_string
  let s3_key := "stories/" ++ story_id ++ "/idempotency/" ++ natPad4 seq ++ "_" ++ key_hash ++ ".lock"
  let memory_key := story_id ++ "_" ++ toString seq ++ "_" ++ key_hash
  ⟨memory_key, s3_key, key_hash⟩

/-- Outcome of an S3 `head_object` call as distinguished by
`check_already_processed` (idempotency.py lines 72-94): success, a botocore
`ClientError` carrying an error code (`"404"` means the object is absent),
or any other exception. -/
inductive HeadResult where
  | found
  | clientError (code : String)
  | otherExc
deriving DecidableEq

/-- Mutable state of an `IdempotencyManager` instance (idempotency.py
lines 18-21): the in-memory `processed_keys` cache and the
`persistence_enabled` flag (constructor default `True`). -/
structure ManagerState where
  processed_keys : List String
  persistence_enabled : Bool
deriving DecidableEq

/-- `IdempotencyManager.check_already_processed` (idempotency.py lines 54-94).
`head` models `s3.head_object` on the given key.  Memory-only fallback when
persistence is disabled; otherwise memory-cache fast path, then the S3 lock
file as source of truth; a `ClientError` with code 404 means not processed,
and every other error is logged and treated as not processed.  Total by
construction: every outcome of `head` yields a boolean. -/
def check_already_processed (head : String → HeadResult) (st : ManagerState)
    (d : IdempotencyData) : Bool × ManagerState :=
  if st.persistence_enabled = false then
    (listHas st.processed_keys d.memory_key, st)
  else if listHas st.processed_keys d.memory_key then
    (true, st)
  else
    match head d.s3_key with
    | .found => (true, { st with processed_keys := d.memory_key :: st.processed_keys })
    | .clientError _ => (false, st)
    | .otherExc => (false, st)

/-- `IdempotencyManager.mark_processed` (idempotency.py lines 96-137): adds
the memory key to the cache first, then (when persistence is enabled) writes
the S3 lock file.  `putSucceeds` models whether `s3.put_object` raises;
`store` is the set of S3 object keys present in the bucket.  Returns the
method's boolean together with the new bucket contents and manager state. -/
def mark_processed (putSucceeds : Bool) (store : List String) (st : ManagerState)
    (d : IdempotencyData) : Bool × List String × ManagerState :=
  let st := { st with processed_keys := d.memory_key :: st.processed_keys }
  if st.persistence_enabled then
    if putSucceeds then (true, d.s3_key :: store, st)
    else (false, store, st)
  else (true, store, st)

/-- An S3 `head_object` backed by a bucket listing: found exactly when the
key is present, otherwise a 404 `ClientError`. -/
def headOfStore (store : List String) (k : String) : HeadResult :=
  if listHas store k then .found else .clientError "404"

/-! ## Resume coordinator — src/worker/src/utils/resume.py -/

/-- The descending scan of `SpotInterruptionHandler._calculate_resume_point`
(resume.py line 438: `for seq in range(last_seq_written, -1, -1)`): the
greatest sequence at or below the bound that appears in the S3 listing. -/
def scanDown (s3_segments : List Nat) : Nat → Option Nat
  | 0 => if listHas s3_segments 0 then some 0 else none
  | n + 1 => if listHas s3_segments (n + 1) then some (n + 1) else scanDown s3_segments n

/-- Python `min` over a nonempty list (0 for the empty list, which the
caller never passes). -/
def minimumD : List Nat → Nat
  | [] => 0
  | x :: xs => xs.foldl min x

/-- `SpotInterruptionHandler._calculate_resume_point` (resume.py lines
432-448): scan downwards from `last_seq_written` for a segment present in
S3 and resume just after it; otherwise resume from the earliest EBS staging
segment, or from 0. -/
def calculate_resume_point (last_seq_written : Nat) (s3_segments ebs_segments : List Nat) : Nat :=
  if last_seq_written = 0 then 0
  else
    match scanDown s3_segments last_seq_written with
    | some seq => seq + 1
    | none => if ebs_segments.isEmpty then 0 else minimumD ebs_segments

/-- Result dict of `get_resume_point` restricted to the fields the claims
are about. -/
structure ResumeInfo where
  status : String
  resume_from : Nat
deriving DecidableEq

/-- `SpotInterruptionHandler.get_resume_point` (resume.py lines 384-430).
`ownershipAcquired` models `acquire_story_ownership`; `last_seq` the
DynamoDB `last_seq_written` read; `s3_segments` the authoritative bucket
listing; `ebs_segments` the local staging listing.  A last sequence of 0 is
returned as a new story without consulting storage. -/
def get_resume_point (ownershipAcquired : Bool) (last_seq : Nat)
    (s3_segments ebs_segments : List Nat) : ResumeInfo :=
  if ownershipAcquired = false then ⟨"already_processing", 0⟩
  else if last_seq = 0 then ⟨"new", 0⟩
  else ⟨"resuming", calculate_resume_point last_seq s3_segments ebs_segments⟩

/-- Python `max` over a nonempty list, used only to state the spec's
`max(confirmed_published) + 1` formula. -/
def maximumD : List Nat → Nat
  | [] => 0
  | x :: xs => xs.foldl max x

/-! ## Artifact publisher — src/worker/src/s3_uploader.py -/

/-- Per-story upload bookkeeping of `BlueprintS3Uploader`
(s3_uploader.py line 27: `story_state`). -/
structure StoryUploadState where
  segments_uploaded : List Nat
  playlist_uploaded : Bool
deriving DecidableEq

/-- The uploader's in-memory state: `story_id -> story upload state`. -/
structure UploaderState where
  story_state : List (String × StoryUploadState)
deriving DecidableEq

/-- Contents of the stories bucket: uploaded segment objects
`(story_id, segment number)` and, per story, the reference list of the
currently published playlist object (the playlist file's media-segment
references, which `update_playlist` never inspects). -/
structure S3Store where
  segs : List (String × Nat)
  playlists : List (String × List Nat)
deriving DecidableEq

/-- Read a story's upload bookkeeping, defaulting to the empty record the
Python code lazily creates. -/
def getStoryState (u : UploaderState) (sid : String) : StoryUploadState :=
  (lookupA u.story_state sid).getD ⟨[], false⟩

/-- State update shared by both branches of `upload_segment`
(s3_uploader.py lines 68-71 and 83-86): record the segment as uploaded. -/
def recordSegment (u : UploaderState) (sid : String) (n : Nat) : UploaderState :=
  let st := getStoryState u sid
  let segs := if listHas st.segments_uploaded n then st.segments_uploaded
    else st.segments_uploaded ++ [n]
  ⟨upsertA u.story_state sid { st with segments_uploaded := segs }⟩

/-- `BlueprintS3Uploader._segment_exists` (s3_uploader.py lines 337-346). -/
def segmentExistsS3 (s : S3Store) (sid : String) (n : Nat) : Bool :=
  listHas s.segs (sid, n)

/-- `BlueprintS3Uploader.upload_segment` (s3_uploader.py lines 53-93):
fail if the local file is missing; skip the PUT when the object already
exists (idempotency); otherwise upload, and in either success case record
the segment in `story_state`. -/
def upload_segment (sid : String) (fileExists : Bool) (n : Nat)
    (s : S3Store) (u : UploaderState) : Bool × S3Store × UploaderState :=
  if fileExists = false then (false, s, u)
  else if segmentExistsS3 s sid n then (true, s, recordSegment u sid n)
  else (true, { s with segs := s.segs ++ [(sid, n)] }, recordSegment u sid n)

/-- `BlueprintS3Uploader.update_playlist` (s3_uploader.py lines 97-137):
fail if the local playlist file is missing; refuse when NO segment at all
has been recorded as uploaded for the story; otherwise PUT the playlist
object (whose reference list `refs` is never inspected) and mark
`playlist_uploaded`. -/
def update_playlist (sid : String) (fileExists : Bool) (refs : List Nat)
    (s : S3Store) (u : UploaderState) : Bool × S3Store × UploaderState :=
  if fileExists = false then (false, s, u)
  else if (getStoryState u sid).segments_uploaded.isEmpty then (false, s, u)
  else
    let s := { s with playlists := upsertA s.playlists sid refs }
    let st := getStoryState u sid
    (true, s, ⟨upsertA u.story_state sid { st with playlist_uploaded := true }⟩)

/-! ## Two-phase scheduler / SQS poller — src/worker/src/sqs_poller.py

Wall-clock times and durations are modelled as rationals; Python float
arithmetic on them consists of `max`, `min`, `+`, `-` and comparisons, which
the claims treat exactly. -/

/-- The `StoryState` dataclass (sqs_poller.py lines 48-66), restricted to
the fields the scheduler reads or writes. -/
structure StoryState where
  story_id : String
  voice_id : String
  language : String
  buffer_seconds : ℚ
  is_first_sentence_rendered : Bool
  is_complete : Bool
  added_time : ℚ
  last_processed_time : ℚ
  ttfa_ms : Option ℚ
  segment_count : Nat
  active_render_count : Nat
deriving DecidableEq

/-- The per-message dict `_process_message` appends to `story_message_map`
(sqs_poller.py lines 228-234), restricted to the fields later code reads. -/
structure MessageData where
  seq : Nat
  text : String
  idempotency_key : String
deriving DecidableEq

/-- A parsed SQS message body (blueprint schema, sqs_poller.py lines
192-198).  Missing string fields are modelled as the empty string, which is
exactly what the `all([...])` truthiness check rejects. -/
structure SqsMessage where
  story_id : String
  seq : Nat
  text : String
  voice_id : String
  lang : String
  idempotency_key : String
deriving DecidableEq

/-- Mutable state of a `ProductionSQSWorker` (sqs_poller.py lines 85-109)
as far as the scheduler logic is concerned. -/
structure WorkerState where
  active_stories : List (String × StoryState)
  story_message_map : List (String × List MessageData)
  processed_idempotency_keys : List String
  min_concurrent : Nat
  max_concurrent : Nat
  current_concurrent_limit : Nat
  ttfa_values : List ℚ
  synthesis_times : List ℚ
  enable_adaptive_scaling : Bool
deriving DecidableEq

/-- Constructor state of `ProductionSQSWorker` (sqs_poller.py lines 85-109):
empty maps, `current_concurrent_limit = min_concurrent`. -/
def initWorker (minC maxC : Nat) (adaptive : Bool) : WorkerState :=
  { active_stories := [], story_message_map := [], processed_idempotency_keys := [],
    min_concurrent := minC, max_concurrent := maxC, current_concurrent_limit := minC,
    ttfa_values := [], synthesis_times := [], enable_adaptive_scaling := adaptive }

/-- The `StoryState(...)` construction in `_process_message` (sqs_poller.py
lines 217-223) together with the dataclass defaults. -/
def mkStoryState (story_id voice_id language : String) (now : ℚ) : StoryState :=
  { story_id := story_id, voice_id := voice_id, language := language,
    buffer_seconds := 0, is_first_sentence_rendered := false, is_complete := false,
    added_time := now, last_processed_time := now, ttfa_ms := none,
    segment_count := 0, active_render_count := 0 }

/-- `ProductionSQSWorker._process_message` (sqs_poller.py lines 185-241):
reject messages failing the schema truthiness check; treat an already
processed idempotency key as success (so the message gets deleted); refuse
to admit a NEW story when the active-story count has reached the
concurrency limit; otherwise add the story (on first sight) and append the
message data to `story_message_map`.  Returns the method's boolean and the
updated state; no synthesis happens here. -/
def processMessage (now : ℚ) (w : WorkerState) (m : SqsMessage) : Bool × WorkerState :=
  if m.story_id = "" ∨ m.text = "" ∨ m.voice_id = "" ∨ m.idempotency_key = "" then
    (false, w)
  else if listHas w.processed_idempotency_keys m.idempotency_key then
    (true, w)
  else if lookupA w.active_stories m.story_id = none ∧
      w.current_concurrent_limit ≤ w.active_stories.length then
    (false, w)
  else
    let w := if lookupA w.active_stories m.story_id = none then
        { w with active_stories :=
            w.active_stories ++ [(m.story_id, mkStoryState m.story_id m.voice_id m.lang now)] }
      else w
    let msgs := (lookupA w.story_message_map m.story_id).getD []
    let newMap := upsertA w.story_message_map m.story_id
      (msgs ++ [⟨m.seq, m.text, m.idempotency_key⟩])
    let w := { w with story_message_map := newMap }
    (true, w)

/-- One message handled by the body of `_polling_loop` (sqs_poller.py lines
470-474): the message is deleted from SQS exactly when `_process_message`
returned `True`.  Returns the new state and whether the message was
deleted. -/
def pollingHandleMessage (now : ℚ) (w : WorkerState) (m : SqsMessage) : WorkerState × Bool :=
  let r := processMessage now w m
  (r.2, r.1)

/-- The per-story body of `_simulate_buffer_consumption` (sqs_poller.py
lines 298-313): completed stories are skipped (`continue`); otherwise the
buffer is drained by the elapsed wall-clock time with floor 0 and the
timestamp advanced.  (The cleanup branch at lines 311-313 is guarded by
`story.is_complete` inside the non-complete branch and is therefore dead
code; it never fires.) -/
def simulateStory (now : ℚ) (st : StoryState) : StoryState :=
  if st.is_complete then st
  else { st with buffer_seconds := max 0 (st.buffer_seconds - (now - st.last_processed_time)),
                 last_processed_time := now }

/-- `ProductionSQSWorker._update_concurrency_limit` (sqs_poller.py lines
275-296): with adaptive scaling enabled and at least 10 TTFA samples, move
the limit up below 800 ms average and down above 1200 ms, clamped to the
GPU band. -/
def updateConcurrencyLimit (w : WorkerState) : WorkerState :=
  if w.enable_adaptive_scaling = false then w
  else if 10 ≤ w.ttfa_values.length then
    let last10 := w.ttfa_values.drop (w.ttfa_values.length - 10)
    let avg := last10.sum / 10
    if avg < 800 then
      { w with current_concurrent_limit := min w.max_concurrent (w.current_concurrent_limit + 1) }
    else if 1200 < avg then
      { w with current_concurrent_limit := max w.min_concurrent (w.current_concurrent_limit - 1) }
    else w
  else w

/-- `ProductionSQSWorker._get_rendering_story_count` (sqs_poller.py lines
261-264): stories with a positive active render count. -/
def renderingCount (w : WorkerState) : Nat :=
  (w.active_stories.filter fun p => 0 < p.2.active_render_count).length

/-- The Phase 1 candidate filter of `get_next_story_to_process`
(sqs_poller.py lines 326-331): stories whose first sentence is unrendered,
not complete, with a nonempty pending-message list. -/
def phase1Candidates (w : WorkerState) : List (String × StoryState) :=
  w.active_stories.filter fun p =>
    !p.2.is_first_sentence_rendered && !p.2.is_complete &&
      !((lookupA w.story_message_map p.1).getD []).isEmpty

/-- The Phase 2 candidate filter of `get_next_story_to_process`
(sqs_poller.py lines 349-356): first sentence rendered, not complete,
buffer below the 3 s target, with pending messages. -/
def phase2Candidates (w : WorkerState) : List (String × StoryState) :=
  w.active_stories.filter fun p =>
    p.2.is_first_sentence_rendered && !p.2.is_complete &&
      decide (p.2.buffer_seconds < 3) &&
      !((lookupA w.story_message_map p.1).getD []).isEmpty

/-- Stable insertion into a list sorted ascending by `key`: the new element
goes after all elements with a key less than or equal to its own, matching
the stability of Python `list.sort`. -/
def insertSorted (key : α → ℚ) (x : α) : List α → List α
  | [] => [x]
  | y :: ys => if key y ≤ key x then y :: insertSorted key x ys else x :: y :: ys

/-- Stable ascending sort by a rational key (Python `list.sort(key=...)`). -/
def sortByKey (key : α → ℚ) (l : List α) : List α :=
  l.foldl (fun acc x => insertSorted key x acc) []

/-- The Phase 2 pick of `get_next_story_to_process` (sqs_poller.py lines
348-372): sort the candidates by buffer (lowest first), re-check the
concurrency cap, and return the chosen story's first pending message. -/
def phase2Pick (w : WorkerState) : Option (String × MessageData) :=
  match sortByKey (fun p => p.2.buffer_seconds) (phase2Candidates w) with
  | [] => none
  | (sid, _) :: _ =>
    if renderingCount w < w.current_concurrent_limit then
      match (lookupA w.story_message_map sid).getD [] with
      | md :: _ => some (sid, md)
      | [] => none
    else none

/-- The decision core of `get_next_story_to_process` (sqs_poller.py lines
324-374): Phase 1 sorts its candidates by arrival time (oldest first) and,
when the concurrency cap allows, returns the earliest story's first pending
message; when Phase 1 has no candidates, or its cap/message check falls
through, control reaches Phase 2. -/
def getNextPick (w : WorkerState) : Option (String × MessageData) :=
  match sortByKey (fun p => p.2.added_time) (phase1Candidates w) with
  | [] => phase2Pick w
  | (sid, _) :: _ =>
    if renderingCount w < w.current_concurrent_limit then
      match (lookupA w.story_message_map sid).getD [] with
      | md :: _ => some (sid, md)
      | [] => phase2Pick w
    else phase2Pick w

/-- `ProductionSQSWorker.get_next_story_to_process` (sqs_poller.py lines
315-374): drain buffers by wall-clock time, run adaptive concurrency, then
make the two-phase pick.  Returns the pick and the updated state. -/
def getNextStoryToProcess (now : ℚ) (w : WorkerState) :
    Option (String × MessageData) × WorkerState :=
  let w1 := { w with active_stories := w.active_stories.map fun p => (p.1, simulateStory now p.2) }
  let w2 := updateConcurrencyLimit w1
  (getNextPick w2, w2)

/-- `ProductionSQSWorker.start_render` (sqs_poller.py lines 376-381). -/
def startRender (now : ℚ) (sid : String) (w : WorkerState) : WorkerState :=
  if (lookupA w.active_stories sid).isSome then
    { w with active_stories := updateA w.active_stories sid fun st =>
        { st with active_render_count := st.active_render_count + 1,
                  last_processed_time := now } }
  else w

/-- The per-story update of `complete_render` (sqs_poller.py lines
390-406): decrement the render count (floor 0, Nat subtraction), bump the
segment count, add the net buffer gain
`segment_duration - min(synthesis_time, segment_duration)` with floor 0
(1-second HLS segments), and on the first recorded TTFA mark the first
sentence rendered. -/
def completeRenderStory (now synthesis_time : ℚ) (ttfa_ms : Option ℚ)
    (st : StoryState) : StoryState :=
  let st := { st with active_render_count := st.active_render_count - 1,
                      last_processed_time := now,
                      segment_count := st.segment_count + 1 }
  let segment_duration : ℚ := 1
  let net_gain := segment_duration - min synthesis_time segment_duration
  let st := { st with buffer_seconds := max 0 (st.buffer_seconds + net_gain) }
  match ttfa_ms, st.ttfa_ms with
  | some t, none => { st with ttfa_ms := some t, is_first_sentence_rendered := true }
  | _, _ => st

/-- Python `list.append` followed by `pop(0)` when the length exceeds the
cap (sqs_poller.py lines 403-405 and 409-411). -/
def capList (cap : Nat) (l : List ℚ) : List ℚ :=
  if cap < l.length then l.drop (l.length - cap) else l

/-- `ProductionSQSWorker.complete_render` (sqs_poller.py lines 383-425):
no-op for unknown stories; otherwise update the story, record TTFA and
synthesis-time samples, add the message's idempotency key to the processed
set (when truthy) and remove matching messages from the story's pending
list. -/
def completeRender (now : ℚ) (sid : String) (md : MessageData) (synthesis_time : ℚ)
    (ttfa_ms : Option ℚ) (w : WorkerState) : WorkerState :=
  match lookupA w.active_stories sid with
  | none => w
  | some st =>
    let newStories := updateA w.active_stories sid
      (completeRenderStory now synthesis_time ttfa_ms)
    let w := { w with active_stories := newStories }
    let w := match ttfa_ms, st.ttfa_ms with
      | some t, none => { w with ttfa_values := capList 100 (w.ttfa_values ++ [t]) }
      | _, _ => w
    let w := { w with synthesis_times := capList 100 (w.synthesis_times ++ [synthesis_time]) }
    let w := if md.idempotency_key = "" then w
      else { w with processed_idempotency_keys :=
          w.processed_idempotency_keys ++ [md.idempotency_key] }
    let newMap := updateA w.story_message_map sid fun msgs =>
      msgs.filter fun x => x.idempotency_key ≠ md.idempotency_key
    { w with story_message_map := newMap }

/-- `ProductionSQSWorker.mark_story_complete` (sqs_poller.py lines 427-432). -/
def markStoryComplete (sid : String) (w : WorkerState) : WorkerState :=
  if (lookupA w.active_stories sid).isSome then
    { w with active_stories := updateA w.active_stories sid fun st =>
        { st with is_complete := true } }
  else w

/-- Scheduler states reachable from a fresh worker through the public
operations of `ProductionSQSWorker`. -/
inductive Reach : WorkerState → Prop where
  | init (minC maxC : Nat) (adaptive : Bool) : Reach (initWorker minC maxC adaptive)
  | poll (now : ℚ) (m : SqsMessage) {w : WorkerState} :
      Reach w → Reach (processMessage now w m).2
  | next (now : ℚ) {w : WorkerState} :
      Reach w → Reach (getNextStoryToProcess now w).2
  | start (now : ℚ) (sid : String) {w : WorkerState} :
      Reach w → Reach (startRender now sid w)
  | complete (now : ℚ) (sid : String) (md : MessageData) (synth : ℚ) (ttfa : Option ℚ)
      {w : WorkerState} : Reach w → Reach (completeRender now sid md synth ttfa w)
  | markComplete (sid : String) {w : WorkerState} :
      Reach w → Reach (markStoryComplete sid w)

/-- Buffer nonnegativity for every tracked story. -/
def BufNonneg (w : WorkerState) : Prop :=
  ∀ p ∈ w.active_stories, 0 ≤ p.2.buffer_seconds

/-! ## Pipeline lifecycle and publication ordering —
src/worker/src/audio_pipeline.py and src/worker/main.py

The worker runs `_synthesize_sentence` on the main thread; the pipeline's
writer thread and upload-monitor thread run concurrently, synchronised with
the main thread only through the bounded `audio_queue`.  Executions are
modelled as interleavings of the per-thread event sequences. -/

/-- Observable events of one unit of work flowing through
`LunebiGPUWorker._synthesize_sentence` (main.py lines 316-449) and
`StoryFFmpegPipeline` (audio_pipeline.py). -/
inductive Ev where
  | genKey
  | checkProcessed
  | checkSegmentExists
  | synthesize
  | feedAudio (seq : Nat)
  | markProcessed (seq : Nat)
  | dequeueChunk (seq : Nat)
  | segmentReady (seq : Nat)
  | uploadSegment (seq : Nat)
  | uploadPlaylist (seq : Nat)
deriving DecidableEq

/-- Main-thread event sequence of `_synthesize_sentence` on the happy path
(main.py lines 316-449, both idempotency checks missing): generate the key
(step 1), check the ledger (step 2), check S3 (step 3), synthesize (step
4), feed the PCM to the pipeline (step 7, `feed_audio`, which merely
enqueues the chunk on `audio_queue` and returns, audio_pipeline.py lines
357-377), then immediately mark the unit processed (step 8). -/
def synthesizeSentenceTrace (seq : Nat) : List Ev :=
  [Ev.genKey, Ev.checkProcessed, Ev.checkSegmentExists, Ev.synthesize,
   Ev.feedAudio seq, Ev.markProcessed seq]

/-- Pipeline-side event sequence for the same unit: the writer thread
dequeues the chunk and writes it to ffmpeg (audio_pipeline.py lines
232-253), ffmpeg emits the segment file, and the upload-monitor thread
uploads the segment and then the playlist (audio_pipeline.py lines
282-330). -/
def pipelineTrace (seq : Nat) : List Ev :=
  [Ev.dequeueChunk seq, Ev.segmentReady seq, Ev.uploadSegment seq, Ev.uploadPlaylist seq]

/-- Subsequence test (greedy scan, which is complete for subsequences). -/
def isSubseqOf [DecidableEq α] : List α → List α → Bool
  | [], _ => true
  | _ :: _, [] => false
  | a :: as, b :: bs => if a = b then isSubseqOf as bs else isSubseqOf (a :: as) bs

/-- Index of the first occurrence of an event in a schedule (length of the
list when absent). -/
def idxOf (e : Ev) : List Ev → Nat
  | [] => 0
  | x :: xs => if x = e then 0 else idxOf e xs + 1

/-- Schedules the code can actually produce for one unit: an interleaving
of the main-thread trace and the pipeline trace (each thread's program
order preserved, nothing else interleaved) subject to the only cross-thread
synchronisation in the source, namely that the writer thread can dequeue a
chunk only after `feed_audio` has enqueued it.  Nothing in
`_synthesize_sentence` waits for the upload: `feed_audio` returns as soon
as `audio_queue.put` succeeds. -/
def ValidSchedule (seq : Nat) (t : List Ev) : Prop :=
  isSubseqOf (synthesizeSentenceTrace seq) t = true ∧
  isSubseqOf (pipelineTrace seq) t = true ∧
  t.length = (synthesizeSentenceTrace seq).length + (pipelineTrace seq).length ∧
  idxOf (Ev.feedAudio seq) t < idxOf (Ev.dequeueChunk seq) t

/-- The schedule in which the main thread runs to completion before the
pipeline threads process the chunk — the typical execution, since the
upload monitor polls only every 0.5 s. -/
def mainFirstSchedule : List Ev := synthesizeSentenceTrace 1 ++ pipelineTrace 1

/-- State of one `StoryFFmpegPipeline`, restricted to what the pipeline
continuity claim observes: how often `_start_ffmpeg` ran, the local
playlist file's lines, whether stdin was closed, how often
`_finalize_pipeline` ran, and how many chunks were fed. -/
structure PipeState where
  ffmpegStarts : Nat
  playlistLines : List String
  stdinClosed : Bool
  finalizeCalls : Nat
  fedChunks : Nat
deriving DecidableEq

/-- `StoryFFmpegPipeline._start_ffmpeg` (audio_pipeline.py lines 76-119):
spawn the one persistent encoder subprocess. -/
def startFfmpeg (p : PipeState) : PipeState :=
  { p with ffmpegStarts := p.ffmpegStarts + 1 }

/-- `StoryFFmpegPipeline.__init__` → `_start_pipeline` (audio_pipeline.py
lines 38-74 and 332-355): the constructor is the only call site of
`_start_ffmpeg`. -/
def mkPipeline : PipeState :=
  startFfmpeg { ffmpegStarts := 0, playlistLines := [], stdinClosed := false,
                finalizeCalls := 0, fedChunks := 0 }

/-- `StoryFFmpegPipeline.feed_audio` (audio_pipeline.py lines 357-377):
enqueue one chunk; never touches the subprocess. -/
def pipeFeedAudio (p : PipeState) : PipeState :=
  { p with fedChunks := p.fedChunks + 1 }

/-- Feed `n` sequential units into the pipeline. -/
def feedUnits : Nat → PipeState → PipeState
  | 0, p => p
  | n + 1, p => feedUnits n (pipeFeedAudio p)

/-- `StoryFFmpegPipeline._finalize_pipeline` (audio_pipeline.py lines
379-409): append the `#EXT-X-ENDLIST` marker to the local playlist, close
ffmpeg's stdin, wait for it with a bounded timeout, upload the final files.
The method has no guard against running twice. -/
def finalizePipeline (p : PipeState) : PipeState :=
  { p with playlistLines := p.playlistLines ++ ["#EXT-X-ENDLIST"],
           stdinClosed := true,
           finalizeCalls := p.finalizeCalls + 1 }

/-- The upload-monitor thread's completion check (audio_pipeline.py lines
323-327): once the writer thread has set the state to COMPLETE after the
final chunk and the queue is empty, the monitor calls
`_finalize_pipeline` and exits. -/
def uploaderOnComplete (p : PipeState) : PipeState := finalizePipeline p

/-- `StoryFFmpegPipeline.shutdown` (audio_pipeline.py lines 430-457),
invoked by `LunebiGPUWorker._complete_story` (main.py lines 525-534) when
the final unit was rendered: stop the threads, join them, and call
`_finalize_pipeline` — again, even when the upload monitor already
finalized. -/
def pipelineShutdown (p : PipeState) : PipeState := finalizePipeline p

/-- One story run end to end in the ordinary interleaving: construct the
pipeline, feed `n` sequential units (the last one final), let the upload
monitor observe completion and finalize, then `_complete_story` calls
`shutdown`. -/
def runStory (n : Nat) : PipeState :=
  pipelineShutdown (uploaderOnComplete (feedUnits n mkPipeline))

/-- Number of end-of-stream markers in the playlist file. -/
def countEndlist (lines : List String) : Nat :=
  (lines.filter fun s => s == "#EXT-X-ENDLIST").length

/-! ## Concrete instances used to settle individual claims -/

/-- A stand-in digest function for evaluating `generate_idempotency_key`
on concrete inputs; the key-shape facts below hold for every digest
function, so the choice is immaterial. -/
def shaIdentity : String → String := fun s => s

/-- A well-formed queue message (blueprint schema of spec section 6). -/
def c2msg : SqsMessage := ⟨"s1", 1, "Hello.", "v1", "en-US", "k1"⟩

/-- A fresh worker (concurrency limit 1) handling `c2msg` through the
polling-loop body. -/
def c2run : WorkerState × Bool := pollingHandleMessage 0 (initWorker 1 2 true) c2msg

/-- Upload of segment 0 of story `s1` into an empty bucket. -/
def c3step1 : Bool × S3Store × UploaderState := upload_segment "s1" true 0 ⟨[], []⟩ ⟨[]⟩

/-- Playlist upload for story `s1` whose manifest references segments 0
and 1 while only segment 0 has been published. -/
def c3step2 : Bool × S3Store × UploaderState :=
  update_playlist "s1" true [0, 1] c3step1.2.1 c3step1.2.2

/-- First pending unit of story A. -/
def c7m1 : SqsMessage := ⟨"A", 1, "a one", "v1", "en", "kA1"⟩

/-- First pending unit of story B. -/
def c7m2 : SqsMessage := ⟨"B", 1, "b one", "v1", "en", "kB1"⟩

/-- First pending unit of story C. -/
def c7m3 : SqsMessage := ⟨"C", 1, "c one", "v1", "en", "kC1"⟩

/-- Three new stories arriving at times 1, 2, 3 at a worker whose
concurrency cap is 2 (so N = 3 stories, cap C = 2 < N; story C is refused
admission by `_process_message` because the cap is reached). -/
def c7w0 : WorkerState :=
  (processMessage 3 (processMessage 2 (processMessage 1 (initWorker 2 4 true) c7m1).2 c7m2).2 c7m3).2

/-- First get-next-job call. -/
def c7call1 : Option (String × MessageData) × WorkerState := getNextStoryToProcess 4 c7w0

/-- The returned story starts rendering (render still in flight). -/
def c7w1 : WorkerState := startRender 4 "A" c7call1.2

/-- Second get-next-job call, while story A's first render is in flight. -/
def c7call2 : Option (String × MessageData) × WorkerState := getNextStoryToProcess 5 c7w1

/-- A sample story record as created on first job arrival. -/
def c8story : StoryState := mkStoryState "s8" "v1" "en" 0

/-- A well-formed first unit of story `s8`. -/
def c8msg : SqsMessage := ⟨"s8", 1, "Once.", "v1", "en-US", "k8"⟩

/-- A reachable scheduler state holding one story. -/
def c8w1 : WorkerState := (processMessage 0 (initWorker 1 2 true) c8msg).2

/-! ## Theorems -/

/-- C1: the claim says `mark_processed` is invoked only after the unit's
segment has been successfully uploaded, in every execution.  The code
refutes this: the schedule in which `_synthesize_sentence` runs to
completion before the pipeline threads touch the chunk is a valid
execution (it respects both threads' program order and the queue
synchronisation — `feed_audio` only enqueues and returns), and in it the
idempotency marker is persisted strictly before the segment upload. -/
theorem c1_mark_processed_before_upload :
    ValidSchedule 1 mainFirstSchedule ∧
    idxOf (Ev.markProcessed 1) mainFirstSchedule <
      idxOf (Ev.uploadSegment 1) mainFirstSchedule := by
  unfold ValidSchedule
  decide

/-- C2: the claim says a queue message is deleted only after its unit has
been successfully processed.  The code refutes this: for a well-formed
message at a fresh worker, `_process_message` returns `True` after merely
queueing the unit into `story_message_map`, so the polling loop deletes
the message while the unit is still pending and nothing has been
synthesized (its idempotency key is not in the processed set). -/
theorem c2_message_deleted_before_synthesis :
    c2run.2 = true ∧
    (lookupA c2run.1.story_message_map "s1").getD [] = [⟨1, "Hello.", "k1"⟩] ∧
    c2run.1.processed_idempotency_keys = [] := by
  decide

/-- C3 counterexample: with only segment 0 of story `s1` published,
`update_playlist` succeeds for a playlist referencing segments 0 and 1, so
a published manifest references segment 1 whose upload never happened —
the claimed per-referenced-segment invariant does not hold. -/
theorem c3_counterexample_playlist_with_unpublished_ref :
    c3step2.1 = true ∧
    lookupA c3step2.2.1.playlists "s1" = some [0, 1] ∧
    listHas c3step2.2.1.segs ("s1", 1) = false := by
  decide

/-- C3 amended: `update_playlist` never inspects the manifest's references;
the only ordering it enforces is that a successful manifest upload requires
at least one segment of the story to have been recorded as uploaded
beforehand. -/
theorem c3_amended_playlist_needs_some_segment (sid : String) (fe : Bool) (refs : List Nat)
    (s : S3Store) (u : UploaderState)
    (hok : (update_playlist sid fe refs s u).1 = true) :
    (getStoryState u sid).segments_uploaded ≠ [] := by
  intro hnil
  cases fe <;> simp [update_playlist, hnil] at hok

/-- C3 witness: the amended theorem applied to the concrete state in which
segment 0 of story `s1` was uploaded. -/
theorem c3_witness : (getStoryState c3step1.2.2 "s1").segments_uploaded ≠ [] :=
  c3_amended_playlist_needs_some_segment "s1" true [0] c3step1.2.1 c3step1.2.2 (by decide)

/-- C4 counterexample: with the durable pointer at 2 while storage holds
segments 0..3 (pointer behind the true publish state), `get_resume_point`
returns 3, not `max(confirmed_published) + 1 = 4` — the scan never looks
above the durable pointer, so the storage listing is not authoritative in
that direction. -/
theorem c4_counterexample_pointer_behind_storage :
    (get_resume_point true 2 [0, 1, 2, 3] []).resume_from = 3 ∧
    maximumD [0, 1, 2, 3] + 1 = 4 := by
  decide

/-- Membership scan distributes over list append. -/
theorem listHas_append [DecidableEq α] (l1 l2 : List α) (a : α) :
    listHas (l1 ++ l2) a = (listHas l1 a || listHas l2 a) := by
  induction l1 with
  | nil => simp [listHas]
  | cons x xs ih =>
    by_cases hx : x = a
    · simp [listHas, hx]
    · simp [listHas, hx, ih]

/-- Membership in `List.range`. -/
theorem listHas_range_iff (n j : Nat) : listHas (List.range n) j = true ↔ j < n := by
  induction n with
  | zero => simp [List.range_zero, listHas]
  | succ n ih =>
    rw [List.range_succ, listHas_append]
    simp only [Bool.or_eq_true, ih, listHas, if_false]
    constructor
    · intro h
      rcases h with h1 | h2
      · exact Nat.lt_succ_of_lt h1
      · split at h2
        · omega
        · simp at h2
    · intro h
      rcases Nat.lt_succ_iff_lt_or_eq.mp h with h1 | h2
      · exact Or.inl h1
      · subst h2
        right
        simp

/-- The downward scan returns the greatest listed sequence at or below the
bound. -/
theorem scanDown_spec (k j : Nat) (s3 : List Nat)
    (hj : listHas s3 j = true) (hjk : j ≤ k) :
    ∃ m, scanDown s3 k = some m ∧ j ≤ m ∧ listHas s3 m = true ∧ m ≤ k := by
  induction k with
  | zero =>
    have hj0 : j = 0 := Nat.le_zero.mp hjk
    subst hj0
    exact ⟨0, by simp [scanDown, hj], Nat.le_refl 0, hj, Nat.le_refl 0⟩
  | succ k ih =>
    by_cases h : listHas s3 (k + 1) = true
    · exact ⟨k + 1, by simp [scanDown, h], hjk, h, Nat.le_refl _⟩
    · have hne : j ≠ k + 1 := fun he => h (he ▸ hj)
      obtain ⟨m, h1, h2, h3, h4⟩ := ih (by omega)
      exact ⟨m, by simp [scanDown, h, h1], h2, h3, Nat.le_succ_of_le h4⟩

/-- C4 amended: the resume point is computed by scanning downwards from the
durable pointer — `resume_from` is the greatest published segment at or
below `last_sequence_written`, plus one.  In particular, with pointer `k`
and storage holding exactly segments `0..k-2` the result is `k-1` (the
spec's crash scenario), and a new story (pointer 0) resumes from 0; but
segments above the pointer are ignored, so when the pointer lags behind the
true publish state the result is not `max(confirmed_published) + 1`. -/
theorem c4_amended_resume_point :
    (∀ k : Nat, 2 ≤ k →
      (get_resume_point true k (List.range (k - 1)) []).resume_from = k - 1) ∧
    get_resume_point true 0 [] [] = ⟨"new", 0⟩ ∧
    (∀ (k : Nat) (s3 ebs : List Nat) (j : Nat), 1 ≤ k →
      listHas s3 j = true → j ≤ k →
      ∃ m, j ≤ m ∧ listHas s3 m = true ∧ m ≤ k ∧
        (get_resume_point true k s3 ebs).resume_from = m + 1) := by
  refine ⟨?_, rfl, ?_⟩
  · intro k hk
    obtain ⟨m, rfl⟩ : ∃ m, k = m + 2 := ⟨k - 2, by omega⟩
    have h2 : listHas (List.range (m + 1)) (m + 2) = false := by
      rw [← Bool.not_eq_true, listHas_range_iff]
      omega
    have h1 : listHas (List.range (m + 1)) (m + 1) = false := by
      rw [← Bool.not_eq_true, listHas_range_iff]
      omega
    have h0 : listHas (List.range (m + 1)) m = true := by
      rw [listHas_range_iff]
      omega
    have hscan : scanDown (List.range (m + 1)) (m + 2) = some m := by
      show scanDown (List.range (m + 1)) (m + 1 + 1) = some m
      rw [scanDown, h2, if_neg (by simp), scanDown, h1, if_neg (by simp)]
      cases m with
      | zero => rw [scanDown, h0, if_pos rfl]
      | succ m0 => rw [scanDown, h0, if_pos rfl]
    simp [get_resume_point, calculate_resume_point, hscan]
  · intro k s3 ebs j hk hj hjk
    obtain ⟨m, hm⟩ := scanDown_spec k j s3 hj hjk
    refine ⟨m, hm.2.1, hm.2.2.1, hm.2.2.2, ?_⟩
    have hk0 : k ≠ 0 := by omega
    simp [get_resume_point, calculate_resume_point, hk0, hm.1]

/-- C4 witness: the amended theorem at the spec's own crash scenario with
`k = 2` (storage holds exactly segment 0, so the resume point is 1), and
the downward-scan characterisation at pointer 1 with segment 0 published. -/
theorem c4_witness :
    (get_resume_point true 2 (List.range 1) []).resume_from = 1 ∧
    (∃ m, 0 ≤ m ∧ listHas [0] m = true ∧ m ≤ 1 ∧
      (get_resume_point true 1 [0] []).resume_from = m + 1) :=
  ⟨c4_amended_resume_point.1 2 (by decide),
   c4_amended_resume_point.2.2 1 [0] [] 0 (by decide) (by decide) (by decide)⟩

/-- C5 counterexample: two calls to `generate_idempotency_key` agreeing on
all five content fields but differing in `story_id` do not return identical
keys — the returned S3 lock-file key and memory key embed the story and
sequence.  (The inequality holds for every digest function; it is
instantiated at a concrete one to make the statement closed.) -/
theorem c5_counterexample_full_key_differs :
    generate_idempotency_key shaIdentity "xtts-v2" "story-a" 0 "Hello." "v1" "1.0" "aac" ≠
    generate_idempotency_key shaIdentity "xtts-v2" "story-b" 0 "Hello." "v1" "1.0" "aac" := by
  decide

/-- C5 amended: the `hash` component of the returned key is a deterministic
function of `(model_version, voice_id, text, speed, format)` alone — two
calls agreeing on those five fields return the same hash whatever their
`story_id` and `seq` — but the full returned key (its `memory_key` and
`s3_key` components) additionally embeds `story_id` and `seq`, so identical
content collapses to one hash, not to one lock-file key. -/
theorem c5_amended_hash_deterministic (sha : String → String) (mv : String)
    (sid1 sid2 : String) (seq1 seq2 : Nat) (text voice speed fmt : String) :
    (generate_idempotency_key sha mv sid1 seq1 text voice speed fmt).hash =
    (generate_idempotency_key sha mv sid2 seq2 text voice speed fmt).hash := rfl

/-- C6: after a successful `mark_processed`, `check_already_processed`
returns true for the same key — both on the same manager instance (memory
cache) and on a fresh instance reading the same bucket after a restart
(S3 lock file); and once the lock artifact exists in storage, a fresh
instance's check returns true as well. -/
theorem c6_mark_then_check (putOk : Bool) (store : List String) (st : ManagerState)
    (d : IdempotencyData) (hpers : st.persistence_enabled = true) :
    ((mark_processed putOk store st d).1 = true →
      (check_already_processed (headOfStore (mark_processed putOk store st d).2.1)
          (mark_processed putOk store st d).2.2 d).1 = true ∧
      (check_already_processed (headOfStore (mark_processed putOk store st d).2.1)
          ⟨[], true⟩ d).1 = true) ∧
    (∀ store2 : List String, listHas store2 d.s3_key = true →
      (check_already_processed (headOfStore store2) ⟨[], true⟩ d).1 = true) := by
  constructor
  · intro hok
    cases putOk with
    | false => simp [mark_processed, hpers] at hok
    | true =>
      constructor
      · simp [mark_processed, hpers, check_already_processed, listHas]
      · simp [mark_processed, hpers, check_already_processed, listHas, headOfStore]
  · intro store2 h2
    simp [check_already_processed, listHas, headOfStore, h2]

/-- C6 witness: the theorem at a concrete key, bucket and fresh manager. -/
theorem c6_witness :
    (check_already_processed
        (headOfStore (mark_processed true [] ⟨[], true⟩ ⟨"s1_1_h", "lk", "h"⟩).2.1)
        (mark_processed true [] ⟨[], true⟩ ⟨"s1_1_h", "lk", "h"⟩).2.2 ⟨"s1_1_h", "lk", "h"⟩).1
      = true ∧
    (check_already_processed (headOfStore ["lk"]) ⟨[], true⟩ ⟨"s1_1_h", "lk", "h"⟩).1 = true :=
  ⟨((c6_mark_then_check true [] ⟨[], true⟩ ⟨"s1_1_h", "lk", "h"⟩ rfl).1 (by decide)).1,
   (c6_mark_then_check true [] ⟨[], true⟩ ⟨"s1_1_h", "lk", "h"⟩ rfl).2 ["lk"] (by decide)⟩

/-- C7 counterexample: with N = 3 new stories and concurrency cap C = 2 <
N, the first two get-next-job calls do not return two distinct story_ids:
story A is returned twice with the same first unit, because the scheduler
neither removes the dispatched message nor excludes a story whose first
render is already in flight from the Phase 1 candidates.  (Story C is not
even admitted: `_process_message` refuses new stories at the cap.) -/
theorem c7_counterexample_same_story_twice :
    c7call1.1.map Prod.fst = some "A" ∧
    c7call2.1.map Prod.fst = some "A" ∧
    c7call1.1 = c7call2.1 := by
  decide

/-- Inserting into the stable sort keeps exactly the old elements plus the
new one. -/
theorem insertSorted_mem (key : α → ℚ) (x a : α) (l : List α) :
    a ∈ insertSorted key x l ↔ a = x ∨ a ∈ l := by
  induction l with
  | nil => simp [insertSorted]
  | cons y ys ih =>
    by_cases h : key y ≤ key x
    · simp only [insertSorted, if_pos h, List.mem_cons, ih, List.mem_cons]
      tauto
    · simp only [insertSorted, if_neg h, List.mem_cons]

/-- The stable sort is a permutation membership-wise. -/
theorem sortByKey_mem (key : α → ℚ) (l : List α) (a : α) :
    a ∈ sortByKey key l ↔ a ∈ l := by
  suffices h : ∀ acc : List α,
      a ∈ l.foldl (fun acc x => insertSorted key x acc) acc ↔ a ∈ acc ∨ a ∈ l by
    simpa [sortByKey] using h []
  induction l with
  | nil => intro acc; simp
  | cons x xs ih =>
    intro acc
    simp only [List.foldl_cons, ih, insertSorted_mem, List.mem_cons]
    tauto

/-- Insertion grows the length by one. -/
theorem insertSorted_length (key : α → ℚ) (x : α) (l : List α) :
    (insertSorted key x l).length = l.length + 1 := by
  induction l with
  | nil => rfl
  | cons y ys ih =>
    by_cases h : key y ≤ key x
    · simp [insertSorted, h, ih]
    · simp [insertSorted, h]

/-- The stable sort preserves length. -/
theorem sortByKey_length (key : α → ℚ) (l : List α) :
    (sortByKey key l).length = l.length := by
  suffices h : ∀ acc : List α,
      (l.foldl (fun acc x => insertSorted key x acc) acc).length = acc.length + l.length by
    simpa [sortByKey] using h []
  induction l with
  | nil => intro acc; simp
  | cons x xs ih =>
    intro acc
    simp only [List.foldl_cons]
    rw [ih, insertSorted_length]
    simp only [List.length_cons]
    omega

/-- Sorting a nonempty list yields a nonempty list. -/
theorem sortByKey_ne_nil (key : α → ℚ) {l : List α} (h : l ≠ []) :
    sortByKey key l ≠ [] := by
  intro hnil
  have hlen := sortByKey_length key l
  rw [hnil] at hlen
  exact h (List.length_eq_zero.mp hlen.symm)

/-- Phase 2 re-checks the same concurrency cap as Phase 1, so when the cap
is reached it yields nothing. -/
theorem phase2Pick_none_of_cap (v : WorkerState)
    (hcap : ¬ renderingCount v < v.current_concurrent_limit) : phase2Pick v = none := by
  unfold phase2Pick
  cases hE : sortByKey (fun p => p.2.buffer_seconds) (phase2Candidates v) with
  | nil => rfl
  | cons hd tl =>
    cases hd with
    | mk sid st => simp [hcap]

/-- Whenever some story qualifies for Phase 1, the scheduler's pick (if
any) is a Phase 1 pick: the earliest-arrived qualifying story together
with its first pending message; and when the concurrency cap is not
reached the pick is never `none`. -/
theorem getNextPick_phase1 (v : WorkerState) (h1 : phase1Candidates v ≠ []) :
    (∀ sid md, getNextPick v = some (sid, md) →
      ∃ st, (sid, st) ∈ phase1Candidates v ∧
        st.is_first_sentence_rendered = false ∧
        ((lookupA v.story_message_map sid).getD []).head? = some md ∧
        (sortByKey (fun p => p.2.added_time) (phase1Candidates v)).head?.map Prod.fst
          = some sid) ∧
    (renderingCount v < v.current_concurrent_limit → getNextPick v ≠ none) := by
  have hs := sortByKey_ne_nil (fun p : String × StoryState => p.2.added_time) h1
  rcases hEq : sortByKey (fun p => p.2.added_time) (phase1Candidates v) with _ | ⟨⟨sid0, st0⟩, rest⟩
  · exact absurd hEq hs
  · have hmem : (sid0, st0) ∈ phase1Candidates v := by
      rw [← sortByKey_mem (fun p => p.2.added_time), hEq]
      exact List.mem_cons_self _ _
    have hpred := (List.mem_filter.mp (by rwa [phase1Candidates] at hmem)).2
    simp only [Bool.and_eq_true, Bool.not_eq_true'] at hpred
    obtain ⟨⟨hfr, _⟩, hmsgs⟩ := hpred
    rcases hml : (lookupA v.story_message_map sid0).getD [] with _ | ⟨md0, tl⟩
    · rw [hml] at hmsgs
      simp at hmsgs
    constructor
    · intro sid md hpick
      simp only [getNextPick, hEq] at hpick
      by_cases hcap : renderingCount v < v.current_concurrent_limit
      · rw [if_pos hcap, hml] at hpick
        have hsid : sid0 = sid ∧ md0 = md := by
          have := Option.some.inj hpick
          exact ⟨congrArg Prod.fst this, congrArg Prod.snd this⟩
        obtain ⟨rfl, rfl⟩ := hsid
        exact ⟨st0, hmem, hfr, by rw [hml]; rfl, by rw [hEq]; rfl⟩
      · rw [if_neg hcap, phase2Pick_none_of_cap v hcap] at hpick
        cases hpick
    · intro hcap
      simp only [getNextPick, hEq]
      rw [if_pos hcap, hml]
      simp

/-- C7 amended: while any story has an unrendered first unit, is not
complete, and has a pending message, `get_next_story_to_process` never
makes a Phase 2 pick — any story it returns has its first unit unrendered,
is the earliest-arrived Phase 1 candidate, and comes with that story's
first pending message — and when the concurrency cap is not reached a pick
is always returned.  Distinctness across successive calls, however, fails
(see the counterexample): the same story can be handed out repeatedly
until its first render completes, so the first C calls need not return C
distinct story_ids. -/
theorem c7_amended_phase1_priority (now : ℚ) (w : WorkerState)
    (h1 : phase1Candidates (getNextStoryToProcess now w).2 ≠ []) :
    (∀ sid md, (getNextStoryToProcess now w).1 = some (sid, md) →
      ∃ st, (sid, st) ∈ phase1Candidates (getNextStoryToProcess now w).2 ∧
        st.is_first_sentence_rendered = false ∧
        ((lookupA (getNextStoryToProcess now w).2.story_message_map sid).getD []).head?
          = some md ∧
        (sortByKey (fun p => p.2.added_time)
            (phase1Candidates (getNextStoryToProcess now w).2)).head?.map Prod.fst
          = some sid) ∧
    (renderingCount (getNextStoryToProcess now w).2 <
        (getNextStoryToProcess now w).2.current_concurrent_limit →
      (getNextStoryToProcess now w).1 ≠ none) :=
  getNextPick_phase1 (getNextStoryToProcess now w).2 h1

/-- C7 witness: the amended theorem at the concrete two-story state of the
counterexample — the cap is not reached at the first call, so a pick is
returned. -/
theorem c7_witness : (getNextStoryToProcess 4 c7w0).1 ≠ none :=
  (c7_amended_phase1_priority 4 c7w0 (by decide)).2 (by decide)

/-- Updating one story through a buffer-nonnegativity-preserving function
preserves buffer nonnegativity of the whole map. -/
theorem bufNonneg_updateA (l : List (String × StoryState)) (sid : String)
    (f : StoryState → StoryState)
    (hf : ∀ st, 0 ≤ st.buffer_seconds → 0 ≤ (f st).buffer_seconds)
    (h : ∀ p ∈ l, 0 ≤ p.2.buffer_seconds) :
    ∀ p ∈ updateA l sid f, 0 ≤ p.2.buffer_seconds := by
  intro p hp
  rw [updateA] at hp
  obtain ⟨q, hq, hqe⟩ := List.mem_map.mp hp
  by_cases hqs : q.1 = sid
  · rw [if_pos hqs] at hqe
    subst hqe
    exact hf q.2 (h q hq)
  · rw [if_neg hqs] at hqe
    subst hqe
    exact h q hq

/-- The per-story update of `complete_render` floors the buffer at 0. -/
theorem bufNonneg_completeRenderStory (now synth : ℚ) (ttfa : Option ℚ) (st : StoryState) :
    0 ≤ (completeRenderStory now synth ttfa st).buffer_seconds := by
  unfold completeRenderStory
  dsimp only
  split
  · exact le_max_left 0 _
  · exact le_max_left 0 _

/-- `_process_message` preserves buffer nonnegativity (new stories start
with an empty buffer). -/
theorem bufNonneg_processMessage (now : ℚ) (w : WorkerState) (m : SqsMessage)
    (h : BufNonneg w) : BufNonneg (processMessage now w m).2 := by
  unfold processMessage
  split
  · exact h
  · split
    · exact h
    · split
      · exact h
      · dsimp only
        intro p hp
        split at hp
        · rcases List.mem_append.mp hp with h1 | h2
          · exact h p h1
          · rcases List.mem_singleton.mp h2 with rfl
            exact le_refl 0
        · exact h p hp

/-- `get_next_story_to_process` preserves buffer nonnegativity (draining
floors at 0; the adaptive-concurrency update does not touch stories). -/
theorem bufNonneg_getNext (now : ℚ) (w : WorkerState) (h : BufNonneg w) :
    BufNonneg (getNextStoryToProcess now w).2 := by
  have hstories : (getNextStoryToProcess now w).2.active_stories
      = w.active_stories.map (fun p => (p.1, simulateStory now p.2)) := by
    unfold getNextStoryToProcess updateConcurrencyLimit
    dsimp only
    split
    · rfl
    · split
      · split
        · rfl
        · split
          · rfl
          · rfl
      · rfl
  intro p hp
  rw [hstories] at hp
  obtain ⟨q, hq, hqe⟩ := List.mem_map.mp hp
  subst hqe
  show 0 ≤ (simulateStory now q.2).buffer_seconds
  unfold simulateStory
  split
  · exact h q hq
  · exact le_max_left 0 _

/-- `start_render` preserves buffer nonnegativity (buffers untouched). -/
theorem bufNonneg_startRender (now : ℚ) (sid : String) (w : WorkerState)
    (h : BufNonneg w) : BufNonneg (startRender now sid w) := by
  unfold startRender
  split
  · intro p hp
    exact bufNonneg_updateA w.active_stories sid
      (fun st => { st with active_render_count := st.active_render_count + 1,
                           last_processed_time := now })
      (fun _ hst => hst) h p hp
  · exact h

/-- `mark_story_complete` preserves buffer nonnegativity. -/
theorem bufNonneg_markStoryComplete (sid : String) (w : WorkerState)
    (h : BufNonneg w) : BufNonneg (markStoryComplete sid w) := by
  unfold markStoryComplete
  split
  · intro p hp
    exact bufNonneg_updateA w.active_stories sid
      (fun st => { st with is_complete := true })
      (fun _ hst => hst) h p hp
  · exact h

/-- `complete_render` preserves buffer nonnegativity. -/
theorem bufNonneg_completeRender (now : ℚ) (sid : String) (md : MessageData)
    (synth : ℚ) (ttfa : Option ℚ) (w : WorkerState) (h : BufNonneg w) :
    BufNonneg (completeRender now sid md synth ttfa w) := by
  cases hl : lookupA w.active_stories sid with
  | none =>
    unfold completeRender
    rw [hl]
    exact h
  | some st =>
    have hstories : (completeRender now sid md synth ttfa w).active_stories
        = updateA w.active_stories sid (completeRenderStory now synth ttfa) := by
      unfold completeRender
      rw [hl]
      dsimp only
      split <;> split <;> rfl
    intro p hp
    rw [hstories] at hp
    exact bufNonneg_updateA w.active_stories sid _
      (fun s _ => bufNonneg_completeRenderStory now synth ttfa s) h p hp

/-- C8: in every reachable scheduler state every story's `buffer_seconds`
is nonnegative; a completed render increases the buffer by exactly
`segment_duration - min(synthesis_time, segment_duration)` (the increment
is itself floored at 0, and the 1-second segment duration makes it
nonnegative, so the `max` never truncates); and the continuous wall-clock
drain subtracts elapsed time with floor 0, so no operation drives the
buffer below zero. -/
theorem c8_buffer_never_negative :
    (∀ w, Reach w → BufNonneg w) ∧
    (∀ (now synth : ℚ) (ttfa : Option ℚ) (st : StoryState), 0 ≤ st.buffer_seconds →
      (completeRenderStory now synth ttfa st).buffer_seconds
        = st.buffer_seconds + (1 - min synth 1)) ∧
    (∀ (now : ℚ) (st : StoryState), st.is_complete = false →
      (simulateStory now st).buffer_seconds
        = max 0 (st.buffer_seconds - (now - st.last_processed_time)) ∧
      0 ≤ (simulateStory now st).buffer_seconds) := by
  refine ⟨?_, ?_, ?_⟩
  · intro w hw
    induction hw with
    | init minC maxC adaptive => intro p hp; simp [initWorker] at hp
    | poll now m _ ih => exact bufNonneg_processMessage now _ m ih
    | next now _ ih => exact bufNonneg_getNext now _ ih
    | start now sid _ ih => exact bufNonneg_startRender now sid _ ih
    | complete now sid md synth ttfa _ ih =>
      exact bufNonneg_completeRender now sid md synth ttfa _ ih
    | markComplete sid _ ih => exact bufNonneg_markStoryComplete sid _ ih
  · intro now synth ttfa st hb
    have hmin : min synth (1 : ℚ) ≤ 1 := min_le_right _ _
    have hnn : (0 : ℚ) ≤ st.buffer_seconds + (1 - min synth 1) := by linarith
    unfold completeRenderStory
    dsimp only
    split
    · exact max_eq_right hnn
    · exact max_eq_right hnn
  · intro now st hc
    unfold simulateStory
    rw [if_neg (by simp [hc])]
    exact ⟨rfl, le_max_left 0 _⟩

/-- C8 witness: the theorem at a concrete story (empty buffer, synthesis
time one half), and the reachability invariant at a concrete reachable
one-story state. -/
theorem c8_witness :
    (completeRenderStory 10 (1 / 2) none c8story).buffer_seconds
      = c8story.buffer_seconds + (1 - min (1 / 2 : ℚ) 1) ∧
    0 ≤ (simulateStory 10 c8story).buffer_seconds ∧
    0 ≤ (mkStoryState "s8" "v1" "en-US" 0).buffer_seconds :=
  ⟨c8_buffer_never_negative.2.1 10 (1 / 2) none c8story (by decide),
   (c8_buffer_never_negative.2.2 10 c8story (by decide)).2,
   c8_buffer_never_negative.1 c8w1 (Reach.poll 0 c8msg (Reach.init 1 2 true))
     ("s8", mkStoryState "s8" "v1" "en-US" 0) (by decide)⟩

/-- C9: the encoder subprocess is spawned exactly once for the whole story
(the constructor is `_start_ffmpeg`'s only call site), but story completion
does not trigger exactly one graceful shutdown and one end-of-stream
marker: in the ordinary execution the upload-monitor thread finalizes the
pipeline on observing COMPLETE and `shutdown` (called by
`_complete_story`) finalizes it again, so `#EXT-X-ENDLIST` is appended to
the playlist twice and the finalization sequence runs twice. -/
theorem c9_single_start_double_endlist :
    (runStory 5).ffmpegStarts = 1 ∧
    countEndlist (runStory 5).playlistLines = 2 ∧
    (runStory 5).finalizeCalls = 2 := by
  decide

/-- C10: `check_already_processed` is total by construction (every
`head_object` outcome yields a boolean, never an exception) and fails
open: when the memory cache misses and the storage lookup does not succeed
— any `ClientError`, 404 or otherwise, or any other exception — it returns
false, treating the unit as not yet processed. -/
theorem c10_check_fails_open (head : String → HeadResult) (st : ManagerState)
    (d : IdempotencyData) (hpers : st.persistence_enabled = true)
    (hmiss : listHas st.processed_keys d.memory_key = false)
    (herr : head d.s3_key ≠ HeadResult.found) :
    (check_already_processed head st d).1 = false := by
  rcases hh : head d.s3_key with _ | c | _
  · exact absurd hh herr
  · simp [check_already_processed, hpers, hmiss, hh]
  · simp [check_already_processed, hpers, hmiss, hh]

/-- C10 witness: the theorem at a concrete key and a backend whose lookup
always fails with a non-ClientError exception. -/
theorem c10_witness :
    (check_already_processed (fun _ => HeadResult.otherExc) ⟨[], true⟩ ⟨"m", "k", "h"⟩).1
      = false :=
  c10_check_fails_open (fun _ => HeadResult.otherExc) ⟨[], true⟩ ⟨"m", "k", "h"⟩ rfl rfl
    (by decide)

end Lunebi
